import Mathlib

/-
Verification development for the Dice job-application automation script
(src/tests/dice_easy.spec.js).  The script's orchestration functions are
shallowly embedded as pure Lean functions.  Browser/network/LLM effects are
modelled as explicit environment records whose fields give the outcome of
each external interaction (a selector query, a page load, an API call), so
that every source function becomes a total function of its environment.
-/

/-! ## String helpers mirroring the JavaScript string primitives used -/

/-- JS `pat.isPrefixOf`-style containment: `haystack.includes(pat)`. -/
def charsContain (pat : List Char) : List Char → Bool
  | [] => pat.isEmpty
  | c :: rest => pat.isPrefixOf (c :: rest) || charsContain pat rest

/-- JS `s.includes(pat)`. -/
def strContains (s pat : String) : Bool :=
  charsContain pat.toList s.toList

/-- Trim of a character list: drop leading and trailing whitespace. -/
def trimChars (l : List Char) : List Char :=
  ((l.dropWhile Char.isWhitespace).reverse.dropWhile Char.isWhitespace).reverse

/-- JS `s.trim()`. -/
def jsTrim (s : String) : String :=
  String.mk (trimChars s.toList)

/-- JS `s.toLowerCase()` (ASCII, which is all this script compares). -/
def jsToLower (s : String) : String :=
  String.mk (s.toList.map Char.toLower)

/-- JS `s.startsWith(pat)`. -/
def jsStartsWith (s pat : String) : Bool :=
  pat.toList.isPrefixOf s.toList

/-- One pass of `replace(/\s+/g, " ")`: each maximal whitespace run becomes
a single space.  `prevWs` records whether the previous character was part of
a whitespace run. -/
def squeezeWsAux (prevWs : Bool) : List Char → List Char
  | [] => []
  | c :: rest =>
    if c.isWhitespace then
      (if prevWs then [] else [' ']) ++ squeezeWsAux true rest
    else c :: squeezeWsAux false rest

/-- JS `s.replace(/\s+/g, " ")`. -/
def replaceWsRuns (s : String) : String :=
  String.mk (squeezeWsAux false s.toList)

/-- JS `s.replace(/\s+/g, " ").trim()`, the cleaning step of
`extractJobDescription`. -/
def normalizeText (s : String) : String :=
  jsTrim (replaceWsRuns s)

/-- JS `s.split("\n")` on character lists (`acc` is the reversed current
chunk). -/
def splitNl (acc : List Char) : List Char → List (List Char)
  | [] => [acc.reverse]
  | c :: rest => if c == '\n' then acc.reverse :: splitNl [] rest else splitNl (c :: acc) rest

/-- JS `lines.join("\n")` for a non-empty split result. -/
def joinNl : List String → String
  | [] => ""
  | [s] => s
  | s :: rest => s ++ "\n" ++ joinNl rest

/-! ## Configuration constants from the script -/

/-- The fixed search-term list `SEARCH_ITEMS`. -/
def SEARCH_ITEMS : List String :=
  ["Playwright", "QA", "Quality", "Automation", "SDET",
   "Software Developer Engineer in Test", "Performance", "Load", "Stress", "JMeter"]

/-- `MAX_PAGES`: maximum number of result pages scraped per search term. -/
def MAX_PAGES : Nat := 5

/-- `MAX_CONCURRENT_TABS`: the concurrency-group size of `processJobBatch`. -/
def MAX_CONCURRENT_TABS : Nat := 2

/-! ## LLM relevance scorer: `checkJobMatchWithLLM` -/

inductive LLMVerdict where
  | MATCH
  | PARTIAL_MATCH
  | NO_MATCH
  | ERROR
  | SKIPPED_LLM
deriving DecidableEq

/-- The string the JS code stores in the `match` field of the result. -/
def llmVerdictName : LLMVerdict → String
  | .MATCH => "MATCH"
  | .PARTIAL_MATCH => "PARTIAL_MATCH"
  | .NO_MATCH => "NO_MATCH"
  | .ERROR => "ERROR"
  | .SKIPPED_LLM => "SKIPPED_LLM"

/-- Result object of `checkJobMatchWithLLM` (`{ match, reason }`); the
`reason` is the raw response content, which may be absent. -/
structure LLMResult where
  verdict : LLMVerdict
  reason : Option String
deriving DecidableEq

/-- Environment of a `checkJobMatchWithLLM` call: whether the Groq client was
initialised, and the outcome of the chat-completion request — an API error,
or the (possibly absent) response content string. -/
structure GroqEnv where
  clientReady : Bool
  apiResponse : Except String (Option String)

/-- JS truthiness of the optional response content (`undefined`/`""` falsy). -/
def respTruthy : Option String → Bool
  | none => false
  | some s => !(s == "")

/-- `responseContent && responseContent.toLowerCase().includes(pat)`. -/
def respContainsLower (r : Option String) (pat : String) : Bool :=
  match r with
  | none => false
  | some s => strContains (jsToLower s) pat

/-- `checkJobMatchWithLLM(cvKeywords, jobDescription)` from the script:
guard clause, API error handling, then classification of the response by
substring tests on its lowercase form. -/
def checkJobMatchWithLLM (env : GroqEnv) (cvKeywords : List String)
    (jobDescription : String) : LLMResult :=
  if !env.clientReady || cvKeywords.isEmpty || jobDescription == "" then
    { verdict := .SKIPPED_LLM, reason := some "Missing data or LLM client" }
  else
    match env.apiResponse with
    | .error msg => { verdict := .ERROR, reason := some ("Groq API error: " ++ msg) }
    | .ok responseContent =>
      if respTruthy responseContent && respContainsLower responseContent "match" then
        { verdict := .MATCH, reason := responseContent }
      else if respTruthy responseContent && respContainsLower responseContent "partial_match" then
        { verdict := .PARTIAL_MATCH, reason := responseContent }
      else
        { verdict := .NO_MATCH, reason := responseContent }

/-! ## Keyword matching: `matchesSearchCriteria` -/

structure MatchCriteria where
  «matches» : Bool
  matchingTerms : List String
deriving DecidableEq

/-- `matchesSearchCriteria(jobTitle)`: case-insensitive substring filter of
the fixed `SEARCH_ITEMS` over the title (falsy title matches nothing). -/
def matchesSearchCriteria (jobTitle : String) : MatchCriteria :=
  if jobTitle == "" then { «matches» := false, matchingTerms := [] }
  else
    let titleLower := jsToLower jobTitle
    let matchingTerms :=
      SEARCH_ITEMS.filter (fun searchItem => strContains titleLower (jsToLower searchItem))
    { «matches» := !matchingTerms.isEmpty, matchingTerms := matchingTerms }

/-! ## Detail-page model and the selector-fallback extractors -/

/-- A DOM element as the extractors see it: `textContent()` (possibly null)
and the `innerText` obtained by `page.evaluate`. -/
structure DomElem where
  textContent : Option String
  innerText : String

/-- A job detail page: `page.$(sel)` (`queryOne`, `none` also when the
selector query throws), `page.$$(sel)` (`queryAll`, `[]` also on a throw),
and the whole-body visible text collected by the broad-scrape fallback of
`extractJobDescription`. -/
structure DetailPage where
  queryOne : String → Option DomElem
  queryAll : String → List DomElem
  broadText : String

/-- `let t = el.textContent(); if (!t || !t.trim()) t = el.innerText`. -/
def resolveText (tc : Option String) (it : String) : String :=
  match tc with
  | none => it
  | some t => if t == "" || jsTrim t == "" then it else t

/-- The ordered title selector list of `extractJobTitleFromDetailPage`. -/
def titleSelectors : List String :=
  ["h1[data-testid=\"job-title\"]",
   "h1[data-cy=\"job-title\"]",
   "h1.job-title",
   "h1[class*=\"job-title\"]",
   "h1[class*=\"JobTitle\"]",
   "h1[id*=\"job-title\"]",
   "h1:first-of-type",
   "h1",
   ".job-header h1",
   ".job-details h1"]

/-- The acceptance test of the title loops:
`title && title.trim() && title.length > 3` (note: the length tested is that
of the *untrimmed* text). -/
def titleTextOk (t : String) : Bool :=
  !(t == "") && !(jsTrim t == "") && decide (3 < t.length)

/-- The acceptance test of the company loops:
`company && company.trim() && company.length > 2`. -/
def companyTextOk (t : String) : Bool :=
  !(t == "") && !(jsTrim t == "") && decide (2 < t.length)

/-- What one selector of the title loop yields: the trimmed text when the
queried element's resolved text passes the acceptance test. -/
def titleCandidate (pg : DetailPage) (sel : String) : Option String :=
  match pg.queryOne sel with
  | none => none
  | some e =>
    let t := resolveText e.textContent e.innerText
    if titleTextOk t then some (jsTrim t) else none

/-- The main selector loop of `extractJobTitleFromDetailPage`. -/
def tryTitleSelectors (pg : DetailPage) : List String → Option String
  | [] => none
  | sel :: rest =>
    match pg.queryOne sel with
    | none => tryTitleSelectors pg rest
    | some e =>
      let t := resolveText e.textContent e.innerText
      if titleTextOk t then some (jsTrim t)
      else tryTitleSelectors pg rest

/-- The `page.$$("h1")` fallback loop of `extractJobTitleFromDetailPage`. -/
def tryH1Elems : List DomElem → Option String
  | [] => none
  | e :: rest =>
    let t := resolveText e.textContent e.innerText
    if titleTextOk t then some (jsTrim t)
    else tryH1Elems rest

/-- `extractJobTitleFromDetailPage(page)`: ordered selectors, then an `h1`
sweep, then the sentinel. -/
def extractJobTitleFromDetailPage (pg : DetailPage) : String :=
  match tryTitleSelectors pg titleSelectors with
  | some t => t
  | none =>
    match tryH1Elems (pg.queryAll "h1") with
    | some t => t
    | none => "Unknown Job Title"

/-- The ordered company selector list of `extractCompanyName`. -/
def companySelectors : List String :=
  ["[data-testid=\"company-name\"]",
   "[data-cy=\"company-name\"]",
   ".company-name",
   "[class*=\"company-name\"]",
   ".job-company",
   ".employer-name",
   "a[href*=\"/company/\"]",
   "span[class*=\"company\"]",
   ".company-info span"]

/-- The composite fallback selector of `extractCompanyName`. -/
def companyFallbackSelector : String :=
  "[class*=\"company\"], span[class*=\"company\"], div[class*=\"company\"]"

/-- The main selector loop of `extractCompanyName`
(`company && company.trim() && company.length > 2`). -/
def tryCompanySelectors (pg : DetailPage) : List String → Option String
  | [] => none
  | sel :: rest =>
    match pg.queryOne sel with
    | none => tryCompanySelectors pg rest
    | some e =>
      let t := resolveText e.textContent e.innerText
      if companyTextOk t then some (jsTrim t)
      else tryCompanySelectors pg rest

/-- The company-like-elements fallback loop of `extractCompanyName`. -/
def tryCompanyElems : List DomElem → Option String
  | [] => none
  | e :: rest =>
    let t := resolveText e.textContent e.innerText
    if companyTextOk t then some (jsTrim t)
    else tryCompanyElems rest

/-- `extractCompanyName(page)`. -/
def extractCompanyName (pg : DetailPage) : String :=
  match tryCompanySelectors pg companySelectors with
  | some t => t
  | none =>
    match tryCompanyElems (pg.queryAll companyFallbackSelector) with
    | some t => t
    | none => "Unknown Company"

/-- The ordered description selector list of `extractJobDescription`. -/
def descriptionSelectors : List String :=
  ["[data-cy=\"job-description\"]",
   "[data-testid=\"job-description\"]",
   ".job-description",
   "div[class*=\"job-description\"]",
   "div[class*=\"JobDescription\"]",
   "section[id*=\"description\"]",
   "div[data-qa=\"job-description\"]",
   "div.job-details-content",
   "div[class*=\"description\"]"]

/-- One element of the description accumulation:
`if (text && text.trim().length > 200) jobDescriptionText += text.trim() + "\n\n"`. -/
def descTextOk (t : String) : Bool :=
  !(t == "") && decide (200 < (jsTrim t).length)

def descAccumOne (acc : String) (e : DomElem) : String :=
  match e.textContent with
  | none => acc
  | some t => if descTextOk t then acc ++ jsTrim t ++ "\n\n" else acc

/-- `extractJobDescription(page)`: accumulate every qualifying element text
over all selectors, normalize whitespace, and if still short fall back to a
broad scrape of all visible text filtered by line; returns `""` when nothing
substantial is found. -/
def extractJobDescription (pg : DetailPage) : String :=
  let raw := descriptionSelectors.foldl (fun acc sel => (pg.queryAll sel).foldl descAccumOne acc) ""
  let jobDescriptionText := normalizeText raw
  if jobDescriptionText.length < 200 then
    let t1 := normalizeText pg.broadText
    let lines := (splitNl [] t1.toList).map String.mk
    let filtered := lines.filter (fun line =>
      50 < (jsTrim line).length
      && !(jsStartsWith (jsTrim line) "Apply now")
      && !(jsStartsWith (jsTrim line) "Sign in"))
    let t3 := normalizeText (joinNl filtered)
    if t3.length < 200 then "" else t3
  else jobDescriptionText

/-! ## Navigation helper: `safeGoto` -/

/-- Environment of a `safeGoto` call: per attempt index, whether
`page.isClosed()` holds when the loop body polls it, and the outcome of
`page.goto` + `page.title()` — an exception message, or the page title. -/
structure NavEnv where
  isClosedAt : Nat → Bool
  attemptResult : Nat → Except String String

/-- A load attempt "fails": it throws, or it yields an empty title. -/
def attemptFails (env : NavEnv) (k : Nat) : Bool :=
  match env.attemptResult k with
  | .error _ => true
  | .ok title => title == ""

/-- The retry loop of `safeGoto` (`for attempt = 0; attempt <= retries`).
Returns the boolean result and the number of `page.goto` calls performed. -/
def safeGotoLoop (env : NavEnv) : Nat → Nat → Bool × Nat
  | 0, _ => (false, 0)
  | fuel + 1, attempt =>
    if env.isClosedAt attempt then (false, 0)
    else
      match env.attemptResult attempt with
      | .ok title =>
        if !(title == "") then (true, 1)
        else
          let r := safeGotoLoop env fuel (attempt + 1)
          (r.1, r.2 + 1)
      | .error _ =>
        let r := safeGotoLoop env fuel (attempt + 1)
        (r.1, r.2 + 1)

/-- `safeGoto(page, url, retries)`: at most `retries + 1` attempts. -/
def safeGoto (env : NavEnv) (retries : Nat) : Bool × Nat :=
  safeGotoLoop env (retries + 1) 0

/-! ## Application sequence: `applyToJob` -/

/-- The detail page as `applyToJob` probes it: per selector, visibility of
the already-applied / apply / next / submit candidates, whether clicking the
matched element succeeds (a click can throw, which the code swallows and
treats as "keep looking"), whether a confirmation selector appears, and the
current URL. -/
structure ApplyPageEnv where
  isClosed : Bool
  currentUrl : String
  alreadyAppliedVisible : String → Bool
  applyVisible : String → Bool
  applyClickOk : String → Bool
  nextVisible : String → Bool
  nextClickOk : String → Bool
  submitVisible : String → Bool
  submitClickOk : String → Bool
  confirmationAppears : String → Bool

structure ApplyResult where
  success : Bool
  alreadyApplied : Bool := false
  reason : String := ""
deriving DecidableEq

/-- The clicks `applyToJob` performed, in order, per control family. -/
structure ApplyTrace where
  applyClicks : List String
  nextClicks : List String
  submitClicks : List String
deriving DecidableEq

def alreadyAppliedSelectors : List String :=
  ["text=You have already applied",
   "text=Application submitted",
   "text=Already applied",
   ".already-applied",
   "[data-testid=\x27already-applied\x27]",
   "text=Application received",
   "text=Applied"]

def applySelectors : List String :=
  ["#applyButton",
   "apply-button-wc",
   "button:has-text(\x27Easy apply\x27)",
   "button:has-text(\x27Apply now\x27)",
   "button:has-text(\x27Apply\x27)",
   "[data-testid=\x27apply-button\x27]",
   ".apply-button",
   "button[data-testid=\x27easy-apply\x27]",
   "input[value*=\x27Apply\x27]"]

def nextSelectors : List String :=
  ["button:has-text(\x27Next\x27)",
   "button:has-text(\x27Continue\x27)",
   "[data-testid=\x27next-button\x27]",
   ".next-button",
   "input[value*=\x27Next\x27]"]

def submitSelectors : List String :=
  ["button:has-text(\x27Submit\x27)",
   "button:has-text(\x27Submit Application\x27)",
   "input[type=\x27submit\x27]",
   "[data-testid=\x27submit-button\x27]",
   ".submit-button",
   "button:has-text(\x27Send Application\x27)",
   "button:has-text(\x27Apply Now\x27)",
   "input[value*=\x27Submit\x27]"]

def confirmationSelectors : List String :=
  [".post-apply-banner",
   "[data-testid=\x27application-confirmation\x27]",
   ".application-success",
   ".confirmation-message",
   "text=Application submitted",
   "text=Successfully applied",
   "text=Application received",
   "text=Thank you for applying",
   "text=Your application has been submitted",
   "text=Application sent"]

/-- A selector loop that clicks the first visible candidate: returns whether
some click succeeded (ending the loop) and the list of click attempts made
(a click that throws is swallowed and the loop continues). -/
def clickFirstVisible (visible clickOk : String → Bool) : List String → Bool × List String
  | [] => (false, [])
  | sel :: rest =>
    if visible sel then
      if clickOk sel then (true, [sel])
      else
        let r := clickFirstVisible visible clickOk rest
        (r.1, sel :: r.2)
    else clickFirstVisible visible clickOk rest

/-- The URL-pattern confirmation probe at the end of `applyToJob`. -/
def urlIndicatesSuccess (u : String) : Bool :=
  strContains u "success" || strContains u "applied"
    || strContains u "confirmation" || strContains u "thank-you"

/-- `applyToJob(page)`: already-applied probe, apply click, optional
next/submit clicks, confirmation probe (selectors, then URL patterns), and
the optimistic default-success fallback.  The three success returns at the
end are the three distinct confirmation paths of the source (selector hit /
URL hit / unverified optimistic success); they return the same object. -/
def applyToJob (env : ApplyPageEnv) : ApplyResult × ApplyTrace :=
  if env.isClosed then
    ({ success := false, reason := "Page is closed" }, ⟨[], [], []⟩)
  else if alreadyAppliedSelectors.any env.alreadyAppliedVisible then
    ({ success := true, alreadyApplied := true }, ⟨[], [], []⟩)
  else
    let ar := clickFirstVisible env.applyVisible env.applyClickOk applySelectors
    if !ar.1 then
      ({ success := false, reason := "No Apply button found" }, ⟨ar.2, [], []⟩)
    else
      let nr := clickFirstVisible env.nextVisible env.nextClickOk nextSelectors
      let sr := clickFirstVisible env.submitVisible env.submitClickOk submitSelectors
      let tr : ApplyTrace := ⟨ar.2, nr.2, sr.2⟩
      if confirmationSelectors.any env.confirmationAppears then
        ({ success := true, alreadyApplied := false }, tr)
      else if urlIndicatesSuccess env.currentUrl then
        ({ success := true, alreadyApplied := false }, tr)
      else
        ({ success := true, alreadyApplied := false }, tr)

/-! ## Single-job processor: `processJob` -/

/-- The result object a `processJob` call resolves with. -/
structure JobResult where
  success : Bool
  alreadyApplied : Bool := false
  skipped : Bool := false
  reason : String := ""
  llmResult : Option LLMResult := none
deriving DecidableEq

/-- State of the job's detail tab when `processJob` returns. -/
inductive TabFinal where
  | noTab
  | stillOpen
  | closedTab
deriving DecidableEq

def tabStillOpen : TabFinal → Bool
  | .stillOpen => true
  | _ => false

/-- Environment of one `processJob` call: the context poll at entry, the
link count of the card (or the exception it raised), the tab-opening step
(`.ok b` = a tab appeared, `b` = it was already closed), the
load-state/settle/url steps, the detail page contents, the LLM environment,
the apply-sequence page, and whether the tab had been closed externally by
the time the `finally` block polls it. -/
structure ProcessJobEnv where
  contextClosedAtStart : Bool
  linkCount : Except String Nat
  tabOpened : Except String Bool
  loadSteps : Except String Unit
  detail : DetailPage
  llm : GroqEnv
  applyPage : ApplyPageEnv
  tabClosedAtFinally : Bool

/-- Outcome of the `try` body of `processJob`: the value returned or the
exception thrown, the scorer invocation (with its result) if any, whether
`applyToJob` ran, the statuses logged so far, and whether a tab was opened. -/
structure BodyOut where
  outcome : Except String JobResult
  llmInvoked : Option LLMResult
  applyInvoked : Bool
  logged : List String
  tabOpened : Bool

/-- Lines 882–961 of the script: the skip-or-apply decision after the
(optional) LLM check. -/
def processJobApplyPhase (env : ProcessJobEnv) (llmMatchResult : Option LLMResult)
    (jobDescription : String) (isInitialMatch : MatchCriteria) : BodyOut :=
  if jobDescription == "" && !isInitialMatch.«matches» then
    { outcome := .ok { success := false, reason := "Skipped - No LLM info & No initial match",
                       skipped := true },
      llmInvoked := llmMatchResult, applyInvoked := false,
      logged := ["Skipped - No LLM info & No initial match"], tabOpened := true }
  else if (match llmMatchResult with
           | some r => r.verdict == .MATCH || r.verdict == .PARTIAL_MATCH
           | none => false)
          || (jobDescription == "" && isInitialMatch.«matches»)
          || isInitialMatch.«matches» then
    let applicationResult := (applyToJob env.applyPage).1
    if applicationResult.success then
      { outcome := .ok { success := true, alreadyApplied := applicationResult.alreadyApplied,
                         llmResult := llmMatchResult },
        llmInvoked := llmMatchResult, applyInvoked := true,
        logged := [if applicationResult.alreadyApplied then "Already Applied"
                   else "Success - Applied"],
        tabOpened := true }
    else
      { outcome := .ok { success := false, reason := applicationResult.reason,
                         llmResult := llmMatchResult },
        llmInvoked := llmMatchResult, applyInvoked := true,
        logged := ["Failed - " ++ applicationResult.reason], tabOpened := true }
  else
    { outcome := .ok { success := false, reason := "Skipped (No LLM Match or Fallback Failed)",
                       skipped := true, llmResult := llmMatchResult },
      llmInvoked := llmMatchResult, applyInvoked := false,
      logged := ["Skipped (No LLM Match or Fallback Failed)"], tabOpened := true }

/-- The extracting/deciding stage of `processJob` (lines 840–880): extract
title, company and description, test the keyword criteria, and invoke the
relevance scorer only when the title does not match and a description was
extracted; a `NO_MATCH`/`ERROR` verdict terminates the job as skipped. -/
def processJobDecide (env : ProcessJobEnv) (cvKeywords : List String) : BodyOut :=
  let jobTitle := extractJobTitleFromDetailPage env.detail
  let _companyName := extractCompanyName env.detail
  let jobDescription := extractJobDescription env.detail
  let isInitialMatch := matchesSearchCriteria jobTitle
  if !isInitialMatch.«matches» && !(jobDescription == "") then
    let llmMatchResult := checkJobMatchWithLLM env.llm cvKeywords jobDescription
    if llmMatchResult.verdict == .NO_MATCH || llmMatchResult.verdict == .ERROR then
      { outcome := .ok { success := false,
                         reason := "LLM " ++ llmVerdictName llmMatchResult.verdict,
                         skipped := true, llmResult := some llmMatchResult },
        llmInvoked := some llmMatchResult, applyInvoked := false,
        logged := ["Skipped (LLM " ++ llmVerdictName llmMatchResult.verdict ++ ")"],
        tabOpened := true }
    else
      processJobApplyPhase env (some llmMatchResult) jobDescription isInitialMatch
  else
    processJobApplyPhase env none jobDescription isInitialMatch

/-- The `try` body of `processJob`: context poll, link count, tab opening,
load steps, then the deciding stage.  Exceptions surface as `.error`. -/
def processJobBody (env : ProcessJobEnv) (cvKeywords : List String) : BodyOut :=
  if env.contextClosedAtStart then
    { outcome := .ok { success := false, reason := "Context closed", skipped := true },
      llmInvoked := none, applyInvoked := false,
      logged := ["Skipped - Context closed"], tabOpened := false }
  else
    match env.linkCount with
    | .error e =>
      { outcome := .error e, llmInvoked := none, applyInvoked := false,
        logged := [], tabOpened := false }
    | .ok jobCardLinkCount =>
      if jobCardLinkCount == 0 then
        { outcome := .ok { success := false, reason := "No clickable link" },
          llmInvoked := none, applyInvoked := false,
          logged := ["Failed - No clickable link"], tabOpened := false }
      else
        match env.tabOpened with
        | .error e =>
          { outcome := .error e, llmInvoked := none, applyInvoked := false,
            logged := [], tabOpened := false }
        | .ok tabClosedAtOpen =>
          if tabClosedAtOpen then
            { outcome := .ok { success := false, reason := "Tab opening error" },
              llmInvoked := none, applyInvoked := false,
              logged := ["Failed - Tab opening error"], tabOpened := true }
          else
            match env.loadSteps with
            | .error e =>
              { outcome := .error e, llmInvoked := none, applyInvoked := false,
                logged := [], tabOpened := true }
            | .ok _ => processJobDecide env cvKeywords

/-- The `finally` block: a tab that exists and is still open is closed
(Playwright's `close` on a live page is assumed to succeed; a tab already
closed externally needs no close).  Either way no open tab survives. -/
def finallyCloseTab (tabOpened : Bool) (isClosedNow : Bool) : TabFinal :=
  if tabOpened then
    if isClosedNow then TabFinal.closedTab else TabFinal.closedTab
  else TabFinal.noTab

/-- What a finished `processJob` call exposes: its result, the scorer
invocation, whether `applyToJob` ran, the logged statuses, and the final
state of the detail tab. -/
structure ProcJobOut where
  result : JobResult
  llmInvoked : Option LLMResult
  applyInvoked : Bool
  logged : List String
  tabFinal : TabFinal

/-- `processJob(context, jobCard, ...)` = `try` body + `catch` (convert the
exception to a failed result and log it; the outer `llmMatchResult` variable
the catch block reads is still `null`) + `finally` (close the tab). -/
def processJob (env : ProcessJobEnv) (cvKeywords : List String) : ProcJobOut :=
  let b := processJobBody env cvKeywords
  match b.outcome with
  | .ok r =>
    { result := r, llmInvoked := b.llmInvoked, applyInvoked := b.applyInvoked,
      logged := b.logged,
      tabFinal := finallyCloseTab b.tabOpened env.tabClosedAtFinally }
  | .error msg =>
    { result := { success := false, reason := msg },
      llmInvoked := b.llmInvoked, applyInvoked := b.applyInvoked,
      logged := b.logged ++ ["Failed - " ++ msg],
      tabFinal := finallyCloseTab b.tabOpened env.tabClosedAtFinally }

/-! ## Batch processor: `processJobBatch` -/

/-- A job-card handle (an index into the page's card list; the handle itself
carries no data the batch processor inspects). -/
abbrev JobCard := Nat

/-- Environment of a `processJobBatch` call: the `context.pages().length`
polls (at each group start, after each card's stagger delay, and between
groups), and the settled outcome of each card's `processJob` promise
(`.error` = the promise rejected, as `Promise.allSettled` reports it). -/
structure BatchEnv where
  ctxOpenAtGroupStart : Nat → Bool
  ctxOpenAtCard : Nat → Bool
  ctxOpenBetween : Nat → Bool
  cardOutcome : Nat → Except String JobResult

/-- The placeholder pushed for a card whose context poll found no pages. -/
def contextClosedResult : JobResult :=
  { success := false, reason := "Context closed", skipped := true }

/-- `Promise.allSettled` folding: a fulfilled value is kept, a rejection
becomes `{ success: false, reason }`. -/
def settleOutcome : Except String JobResult → JobResult
  | .ok v => v
  | .error reason => { success := false, reason := reason }

/-- One concurrency group: each card (absolute index `base + j`) polls the
context after its stagger delay, then runs `processJob`; the settled results
are collected in input order. -/
def runGroupAux (env : BatchEnv) (base : Nat) : List JobCard → Nat → List JobResult
  | [], _ => []
  | _ :: rest, j =>
    (if env.ctxOpenAtCard (base + j) then settleOutcome (env.cardOutcome (base + j))
     else contextClosedResult) :: runGroupAux env base rest (j + 1)

/-- The grouped loop of `processJobBatch` (`for i = 0; i < cards.length;
i += maxConcurrentTabs`), with the two context polls that `break` out of it.
`fuel` bounds the number of groups (`cards.length` suffices when the group
size is positive); `base` is the absolute index of the group's first card
and `g` the group number. -/
def processJobBatchFuel (env : BatchEnv) (maxConcurrentTabs : Nat) :
    Nat → Nat → Nat → List JobCard → List JobResult
  | 0, _, _, _ => []
  | _ + 1, _, _, [] => []
  | fuel + 1, base, g, cards@(_ :: _) =>
    if !(env.ctxOpenAtGroupStart g) then []
    else
      let batch := cards.take maxConcurrentTabs
      let restCards := cards.drop maxConcurrentTabs
      let groupResults := runGroupAux env base batch 0
      match restCards with
      | [] => groupResults
      | _ :: _ =>
        if !(env.ctxOpenBetween g) then groupResults
        else groupResults ++ processJobBatchFuel env maxConcurrentTabs fuel
               (base + maxConcurrentTabs) (g + 1) restCards

/-- `processJobBatch` generalised over the group size. -/
def processJobBatchWith (env : BatchEnv) (maxConcurrentTabs : Nat)
    (jobCards : List JobCard) : List JobResult :=
  processJobBatchFuel env maxConcurrentTabs jobCards.length 0 0 jobCards

/-- `processJobBatch(context, jobCards, ...)` with the script's
`MAX_CONCURRENT_TABS`. -/
def processJobBatch (env : BatchEnv) (jobCards : List JobCard) : List JobResult :=
  processJobBatchWith env MAX_CONCURRENT_TABS jobCards

/-- The entry the batch processor produces for the card at absolute index
`k` when it processes that card at all. -/
def batchEntry (env : BatchEnv) (k : Nat) : JobResult :=
  if env.ctxOpenAtCard k then settleOutcome (env.cardOutcome k) else contextClosedResult

/-! ## Search driver pagination (the per-term page loop of the dynamic test) -/

/-- What happened on one visited page of a search term. -/
inductive PageAction where
  | closedBreak
  | skippedNav
  | noMarker
  | ranBatch (cards : Nat)
  | zeroCards
deriving DecidableEq

/-- Environment of one search term's pagination: per page number, whether the
main page is closed at the loop top, whether `safeGoto` succeeded, whether a
job-card marker appeared within the wait, and how many cards were found. -/
structure SearchPageEnv where
  mainPageClosed : Nat → Bool
  navOk : Nat → Bool
  markerAppears : Nat → Bool
  cardCount : Nat → Nat

/-- The per-term page loop (`for pageNum = 1; pageNum <= MAX_PAGES`):
closed page → `break`; navigation failure → `continue` to the next page;
no card marker → `break`; cards found → run the batch and continue;
zero cards → `break`.  The trace records each visited page. -/
def termLoop (env : SearchPageEnv) : Nat → Nat → List (Nat × PageAction)
  | 0, _ => []
  | fuel + 1, pageNum =>
    if MAX_PAGES < pageNum then []
    else if env.mainPageClosed pageNum then [(pageNum, PageAction.closedBreak)]
    else if !(env.navOk pageNum) then
      (pageNum, PageAction.skippedNav) :: termLoop env fuel (pageNum + 1)
    else if !(env.markerAppears pageNum) then [(pageNum, PageAction.noMarker)]
    else if 0 < env.cardCount pageNum then
      (pageNum, PageAction.ranBatch (env.cardCount pageNum)) :: termLoop env fuel (pageNum + 1)
    else [(pageNum, PageAction.zeroCards)]

/-- The whole pagination of one search term. -/
def searchTermPagination (env : SearchPageEnv) : List (Nat × PageAction) :=
  termLoop env (MAX_PAGES + 1) 1

/-- The page-loop events that terminate pagination for the term. -/
def stopAction : PageAction → Bool
  | .closedBreak => true
  | .noMarker => true
  | .zeroCards => true
  | _ => false

/-! ## Concrete environments used by witnesses and counterexamples -/

/-- A Groq environment whose chat completion answers literally "NO_MATCH". -/
def groqEnvNoMatchResp : GroqEnv := ⟨true, .ok (some "NO_MATCH")⟩

/-- An apply-sequence page with no already-applied indicator, a visible
`#applyButton`, no next/submit controls, no confirmation, and a neutral URL. -/
def applyEnvPlain : ApplyPageEnv :=
  { isClosed := false,
    currentUrl := "https://www.dice.com/job-detail/sample-job",
    alreadyAppliedVisible := fun _ => false,
    applyVisible := fun s => s == "#applyButton",
    applyClickOk := fun _ => true,
    nextVisible := fun _ => false, nextClickOk := fun _ => true,
    submitVisible := fun _ => false, submitClickOk := fun _ => true,
    confirmationAppears := fun _ => false }

/-- The same page but exposing the `text=Applied` already-applied marker. -/
def applyEnvAlready : ApplyPageEnv :=
  { applyEnvPlain with alreadyAppliedVisible := fun s => s == "text=Applied" }

/-- A navigation environment in which every load attempt throws. -/
def navEnvAllFail : NavEnv := ⟨fun _ => false, fun _ => .error "net::ERR_TIMED_OUT"⟩

/-- A detail page whose every single-element query returns a title that
matches the search term "QA". -/
def detailPageQA : DetailPage :=
  { queryOne := fun _ => some { textContent := some "Senior QA Engineer", innerText := "" },
    queryAll := fun _ => [], broadText := "" }

/-- A `processJob` environment that reaches the deciding stage with the
matching title page. -/
def jobEnvQA : ProcessJobEnv :=
  { contextClosedAtStart := false, linkCount := .ok 1, tabOpened := .ok false,
    loadSteps := .ok (), detail := detailPageQA,
    llm := ⟨false, .error ""⟩, applyPage := applyEnvPlain, tabClosedAtFinally := false }

/-- A 201-character job-description element (exceeds the 200 threshold). -/
def longDescElem : DomElem :=
  { textContent := some (String.mk (List.replicate 201 'x')), innerText := "" }

/-- A detail page with a non-matching title and a substantial description. -/
def detailPageAcct : DetailPage :=
  { queryOne := fun _ => some { textContent := some "Senior Accountant", innerText := "" },
    queryAll := fun sel =>
      if sel == "[data-cy=\"job-description\"]" then [longDescElem] else [],
    broadText := "" }

/-- A `processJob` environment whose relevance-scorer call raises an API
error (verdict `ERROR`). -/
def jobEnvAcct : ProcessJobEnv :=
  { contextClosedAtStart := false, linkCount := .ok 1, tabOpened := .ok false,
    loadSteps := .ok (), detail := detailPageAcct,
    llm := ⟨true, .error "boom"⟩, applyPage := applyEnvPlain, tabClosedAtFinally := false }

/-- A batch environment whose context polls always see open pages. -/
def batchEnvOpen : BatchEnv :=
  { ctxOpenAtGroupStart := fun _ => true, ctxOpenAtCard := fun _ => true,
    ctxOpenBetween := fun _ => true, cardOutcome := fun _ => .ok { success := true } }

/-- A batch environment whose context has been closed before the first
group's poll. -/
def batchEnvClosed : BatchEnv :=
  { ctxOpenAtGroupStart := fun _ => false, ctxOpenAtCard := fun _ => false,
    ctxOpenBetween := fun _ => false, cardOutcome := fun _ => .ok { success := true } }

/-- A term-pagination environment where navigation to page 1 fails but every
later page loads with three cards. -/
def searchEnvNavFail : SearchPageEnv :=
  { mainPageClosed := fun _ => false, navOk := fun p => !(p == 1),
    markerAppears := fun _ => true, cardCount := fun _ => 3 }

/-- A detail page whose title element text is " abc ": untrimmed length 5
(passes the `> 3` test of the code) but trimmed length 3. -/
def detailPagePadded : DetailPage :=
  { queryOne := fun _ => some { textContent := some " abc ", innerText := "" },
    queryAll := fun _ => [], broadText := "" }

def descElemA : DomElem :=
  { textContent := some (String.mk (List.replicate 201 'a')), innerText := "" }

def descElemB : DomElem :=
  { textContent := some (String.mk (List.replicate 201 'b')), innerText := "" }

/-- A detail page on which the first description selector matches two
qualifying elements. -/
def detailPageTwoDescs : DetailPage :=
  { queryOne := fun _ => none,
    queryAll := fun sel =>
      if sel == "[data-cy=\"job-description\"]" then [descElemA, descElemB] else [],
    broadText := "" }

/-- A detail page on which every query comes back empty. -/
def detailPageEmpty : DetailPage :=
  { queryOne := fun _ => none, queryAll := fun _ => [], broadText := "" }

/-! ## Helper lemmas about substring containment -/

theorem charsContain_of_isPrefixOf (p l : List Char) (h : p.isPrefixOf l = true) :
    charsContain p l = true := by
  cases l with
  | nil =>
    cases p with
    | nil => rfl
    | cons c cs => simp [List.isPrefixOf] at h
  | cons c cs => simp [charsContain, h]

theorem charsContain_cons (p : List Char) (c : Char) (l : List Char)
    (h : charsContain p l = true) : charsContain p (c :: l) = true := by
  simp [charsContain, h]

theorem isPrefixOf_append_left (x y l : List Char) (h : (x ++ y).isPrefixOf l = true) :
    x.isPrefixOf l = true := by
  induction x generalizing l with
  | nil => simp [List.isPrefixOf]
  | cons a as ih =>
    cases l with
    | nil => simp [List.isPrefixOf] at h
    | cons b bs =>
      simp only [List.cons_append, List.isPrefixOf, Bool.and_eq_true] at h ⊢
      exact ⟨h.1, ih bs h.2⟩

theorem charsContain_of_append_isPrefixOf (x y l : List Char)
    (h : (x ++ y).isPrefixOf l = true) : charsContain y l = true := by
  induction x generalizing l with
  | nil => exact charsContain_of_isPrefixOf y l h
  | cons a as ih =>
    cases l with
    | nil => simp [List.isPrefixOf] at h
    | cons b bs =>
      simp only [List.cons_append, List.isPrefixOf, Bool.and_eq_true] at h
      exact charsContain_cons _ _ _ (ih bs h.2)

theorem charsContain_drop_left (x y l : List Char) :
    charsContain (x ++ y) l = true → charsContain y l = true := by
  induction l with
  | nil =>
    intro h
    simp only [charsContain, List.isEmpty_iff] at h ⊢
    exact (List.append_eq_nil.mp h).2
  | cons c cs ih =>
    intro h
    simp only [charsContain, Bool.or_eq_true] at h
    cases h with
    | inl h => exact charsContain_of_append_isPrefixOf x y _ h
    | inr h => exact charsContain_cons _ _ _ (ih h)

/-- `"partial_match"` contains `"match"`, so any string containing the former
contains the latter. -/
theorem contains_match_of_contains_partial (s : String) :
    strContains s "partial_match" = true → strContains s "match" = true := by
  intro h
  have hsplit : "partial_match".toList = "partial_".toList ++ "match".toList := by decide
  unfold strContains at h ⊢
  rw [hsplit] at h
  exact charsContain_drop_left _ _ _ h

/-! ## C10 -/

/-- C10: for every non-empty scorer response whose lowercase form contains
"match" (including "PARTIAL_MATCH" and "NO_MATCH" responses),
`checkJobMatchWithLLM` returns verdict `MATCH`; consequently
`PARTIAL_MATCH` is never returned, and `NO_MATCH` is returned only for
responses containing no occurrence of "match" at all. -/
theorem C10_llm_match_classification :
    (∀ (env : GroqEnv) (kws : List String) (desc s : String),
        env.clientReady = true → kws ≠ [] → desc ≠ "" →
        env.apiResponse = .ok (some s) → s ≠ "" →
        strContains (jsToLower s) "match" = true →
        (checkJobMatchWithLLM env kws desc).verdict = .MATCH)
    ∧ (∀ (env : GroqEnv) (kws : List String) (desc : String),
        (checkJobMatchWithLLM env kws desc).verdict ≠ .PARTIAL_MATCH)
    ∧ (∀ (env : GroqEnv) (kws : List String) (desc s : String),
        env.apiResponse = .ok (some s) →
        (checkJobMatchWithLLM env kws desc).verdict = .NO_MATCH →
        strContains (jsToLower s) "match" = false) := by
  refine ⟨?_, ?_, ?_⟩
  · intro env kws desc s hclient hkws hdesc happ hs hmatch
    have h1 : kws.isEmpty = false := by
      cases kws with
      | nil => exact absurd rfl hkws
      | cons a l => rfl
    have h2 : (desc == "") = false := beq_eq_false_iff_ne.mpr hdesc
    have h3 : respTruthy (some s) = true := by
      simp [respTruthy, beq_eq_false_iff_ne.mpr hs]
    simp [checkJobMatchWithLLM, hclient, h1, h2, happ, h3, respContainsLower, hmatch]
  · intro env kws desc
    unfold checkJobMatchWithLLM
    split
    · simp
    · split
      · simp
      · rename_i responseContent heq
        split
        · simp
        · split
          · rename_i hnot hpartial
            exfalso
            rw [Bool.and_eq_true] at hpartial
            obtain ⟨htr, hpc⟩ := hpartial
            apply hnot
            rw [Bool.and_eq_true]
            refine ⟨htr, ?_⟩
            cases responseContent with
            | none => simp [respContainsLower] at hpc
            | some s =>
              simp only [respContainsLower] at hpc ⊢
              exact contains_match_of_contains_partial _ hpc
          · simp
  · intro env kws desc s happ hno
    cases hm : strContains (jsToLower s) "match" with
    | false => rfl
    | true =>
      exfalso
      have hs : (s == "") = false := by
        cases hse : (s == "") with
        | false => rfl
        | true =>
          have : s = "" := by simpa using hse
          subst this
          simp [jsToLower, strContains, charsContain] at hm
      unfold checkJobMatchWithLLM at hno
      split at hno
      · simp at hno
      · rw [happ] at *
        split at hno
        · rename_i heq
          cases heq
        · rename_i responseContent heq
          cases heq
          have htr : respTruthy (some s) = true := by simp [respTruthy, hs]
          have hcl : respContainsLower (some s) "match" = true := hm
          have hcond : (respTruthy (some s) && respContainsLower (some s) "match") = true := by
            rw [htr, hcl]; rfl
          rw [if_pos hcond] at hno
          simp at hno

/-- Witness for C10: the concrete response "NO_MATCH" (lowercase contains
"match") is classified as `MATCH`. -/
theorem C10_llm_match_classification_witness :
    (checkJobMatchWithLLM groqEnvNoMatchResp ["Playwright"] "desc").verdict = .MATCH :=
  C10_llm_match_classification.1 groqEnvNoMatchResp ["Playwright"] "desc" "NO_MATCH"
    rfl (by decide) (by decide) rfl (by decide) (by decide)

/-! ## C3 and C7: `applyToJob` -/

/-- C3: if no already-applied indicator is visible, an apply control was
clicked, and no confirmation indicator (selector or URL pattern) matches,
`applyToJob` still reports `{success: true, alreadyApplied: false}`. -/
theorem C3_optimistic_success (env : ApplyPageEnv)
    (h0 : env.isClosed = false)
    (h1 : alreadyAppliedSelectors.any env.alreadyAppliedVisible = false)
    (h2 : (clickFirstVisible env.applyVisible env.applyClickOk applySelectors).1 = true)
    (h3 : confirmationSelectors.any env.confirmationAppears = false)
    (h4 : urlIndicatesSuccess env.currentUrl = false) :
    (applyToJob env).1 = { success := true, alreadyApplied := false, reason := "" } := by
  simp [applyToJob, h0, h1, h2, h3, h4]

/-- Witness for C3: a page with a visible `#applyButton`, no already-applied
indicator, no confirmation, and a neutral URL. -/
theorem C3_optimistic_success_witness :
    (applyToJob applyEnvPlain).1 = { success := true, alreadyApplied := false, reason := "" } :=
  C3_optimistic_success applyEnvPlain rfl (by decide) (by decide) (by decide) (by decide)

/-- C7: when some already-applied indicator is visible, `applyToJob` returns
`{success: true, alreadyApplied: true}` immediately and no apply, next, or
submit control is clicked. -/
theorem C7_already_applied_short_circuit (env : ApplyPageEnv)
    (h0 : env.isClosed = false)
    (h1 : alreadyAppliedSelectors.any env.alreadyAppliedVisible = true) :
    applyToJob env = ({ success := true, alreadyApplied := true, reason := "" }, ⟨[], [], []⟩) := by
  simp [applyToJob, h0, h1]

/-- Witness for C7: a page exposing the `text=Applied` indicator. -/
theorem C7_already_applied_short_circuit_witness :
    applyToJob applyEnvAlready =
      ({ success := true, alreadyApplied := true, reason := "" }, ⟨[], [], []⟩) :=
  C7_already_applied_short_circuit applyEnvAlready rfl (by decide)

/-! ## C6: `safeGoto` -/

theorem safeGotoLoop_count_le (env : NavEnv) :
    ∀ (fuel a : Nat), (safeGotoLoop env fuel a).2 ≤ fuel := by
  intro fuel
  induction fuel with
  | zero => intro a; simp [safeGotoLoop]
  | succ f ih =>
    intro a
    unfold safeGotoLoop
    split
    · simp
    · split
      · split
        · simp
        · simpa using Nat.succ_le_succ (ih (a + 1))
      · simpa using Nat.succ_le_succ (ih (a + 1))

theorem safeGotoLoop_false_of_all_fail (env : NavEnv) :
    ∀ (fuel a : Nat), (∀ k, a ≤ k → k < a + fuel → attemptFails env k = true) →
    (safeGotoLoop env fuel a).1 = false := by
  intro fuel
  induction fuel with
  | zero => intro a _; simp [safeGotoLoop]
  | succ f ih =>
    intro a hall
    unfold safeGotoLoop
    split
    · rfl
    · split
      · rename_i title heq
        have hf : attemptFails env a = true := hall a (Nat.le_refl a) (by omega)
        unfold attemptFails at hf
        rw [heq] at hf
        have hf2 : (title == "") = true := hf
        split
        · rename_i hne
          rw [hf2] at hne
          simp at hne
        · exact ih (a + 1) (fun k h1 h2 => hall k (by omega) (by omega))
      · exact ih (a + 1) (fun k h1 h2 => hall k (by omega) (by omega))

theorem safeGotoLoop_true_implies_success (env : NavEnv) :
    ∀ (fuel a : Nat), (safeGotoLoop env fuel a).1 = true →
    ∃ k t, a ≤ k ∧ k < a + fuel ∧ env.isClosedAt k = false ∧
      env.attemptResult k = .ok t ∧ t ≠ "" := by
  intro fuel
  induction fuel with
  | zero => intro a h; simp [safeGotoLoop] at h
  | succ f ih =>
    intro a h
    unfold safeGotoLoop at h
    split at h
    · simp at h
    · rename_i hopen
      split at h
      · rename_i title heq
        split at h
        · rename_i hne
          refine ⟨a, title, Nat.le_refl a, by omega, ?_, heq, ?_⟩
          · cases hcl : env.isClosedAt a with
            | false => rfl
            | true => rw [hcl] at hopen; simp at hopen
          · intro hcontra
            subst hcontra
            simp at hne
        · obtain ⟨k, t, h1, h2, h3, h4, h5⟩ := ih (a + 1) h
          exact ⟨k, t, by omega, by omega, h3, h4, h5⟩
      · obtain ⟨k, t, h1, h2, h3, h4, h5⟩ := ih (a + 1) h
        exact ⟨k, t, by omega, by omega, h3, h4, h5⟩

/-- C6: `safeGoto` with `retries = 2` performs at most 3 load attempts;
it returns false when the page is already closed at the first poll, and when
every attempt in the window fails; and it returns true only when some
attempt succeeded with a non-empty title.  (The embedding is total: the JS
function catches every per-attempt exception, so no exception escapes.) -/
theorem C6_safeGoto_retries (env : NavEnv) :
    (safeGoto env 2).2 ≤ 3
    ∧ (env.isClosedAt 0 = true → safeGoto env 2 = (false, 0))
    ∧ ((∀ k, k < 3 → attemptFails env k = true) → (safeGoto env 2).1 = false)
    ∧ ((safeGoto env 2).1 = true →
        ∃ k t, k < 3 ∧ env.isClosedAt k = false ∧ env.attemptResult k = .ok t ∧ t ≠ "") := by
  refine ⟨safeGotoLoop_count_le env 3 0, ?_, ?_, ?_⟩
  · intro h
    unfold safeGoto safeGotoLoop
    rw [h]
    rfl
  · intro hall
    exact safeGotoLoop_false_of_all_fail env 3 0 (fun k _ h2 => hall k (by omega))
  · intro h
    obtain ⟨k, t, _, h2, h3, h4, h5⟩ := safeGotoLoop_true_implies_success env 3 0 h
    exact ⟨k, t, by omega, h3, h4, h5⟩

/-- Witness for C6: with every attempt throwing, the result is `false` and
at most 3 attempts were made. -/
theorem C6_safeGoto_retries_witness :
    (safeGoto navEnvAllFail 2).2 ≤ 3 ∧ (safeGoto navEnvAllFail 2).1 = false :=
  ⟨(C6_safeGoto_retries navEnvAllFail).1,
   (C6_safeGoto_retries navEnvAllFail).2.2.1 (by decide)⟩

/-! ## C8: the detail tab is closed on every exit path of `processJob` -/

/-- C8: on every exit path of `processJob` — ordinary return or exception —
no open detail tab survives the `finally` block: the final tab state is
`noTab` (never opened) or `closedTab`, never `stillOpen`. -/
theorem C8_tab_closed_on_every_path (env : ProcessJobEnv) (cvKeywords : List String) :
    tabStillOpen (processJob env cvKeywords).tabFinal = false := by
  simp only [processJob]
  split
  · cases h : (processJobBody env cvKeywords).tabOpened <;>
      cases hc : env.tabClosedAtFinally <;>
        simp [finallyCloseTab, tabStillOpen, h, hc]
  · cases h : (processJobBody env cvKeywords).tabOpened <;>
      cases hc : env.tabClosedAtFinally <;>
        simp [finallyCloseTab, tabStillOpen, h, hc]

/-! ## C4 and C5: the deciding stage of `processJob` -/

theorem processJob_applyInvoked_eq (env : ProcessJobEnv) (kws : List String) :
    (processJob env kws).applyInvoked = (processJobBody env kws).applyInvoked := by
  simp only [processJob]
  split <;> rfl

theorem processJob_llmInvoked_eq (env : ProcessJobEnv) (kws : List String) :
    (processJob env kws).llmInvoked = (processJobBody env kws).llmInvoked := by
  simp only [processJob]
  split <;> rfl

theorem processJob_result_of_ok (env : ProcessJobEnv) (kws : List String) (r0 : JobResult)
    (h : (processJobBody env kws).outcome = .ok r0) :
    (processJob env kws).result = r0 ∧ (processJob env kws).logged = (processJobBody env kws).logged := by
  simp only [processJob]
  split
  · rename_i r1 heq
    rw [heq] at h
    injection h with h
    subst h
    exact ⟨rfl, rfl⟩
  · rename_i msg heq
    rw [heq] at h
    cases h

theorem processJobApplyPhase_llm (env : ProcessJobEnv) (l : Option LLMResult)
    (d : String) (im : MatchCriteria) :
    (processJobApplyPhase env l d im).llmInvoked = l := by
  simp only [processJobApplyPhase]
  split
  · rfl
  · split
    · split <;> rfl
    · rfl

theorem processJobApplyPhase_apply_of_matches (env : ProcessJobEnv) (l : Option LLMResult)
    (d : String) (im : MatchCriteria) (hm : im.«matches» = true) :
    (processJobApplyPhase env l d im).applyInvoked = true := by
  simp only [processJobApplyPhase]
  simp only [hm, Bool.not_true, Bool.and_false, Bool.false_eq_true, if_false, Bool.or_true,
    if_true]
  split <;> rfl

theorem processJobBody_reaches (env : ProcessJobEnv) (kws : List String) (n : Nat)
    (h1 : env.contextClosedAtStart = false) (h2 : env.linkCount = .ok n)
    (h3 : (n == 0) = false) (h4 : env.tabOpened = .ok false)
    (h5 : env.loadSteps = .ok ()) :
    processJobBody env kws = processJobDecide env kws := by
  unfold processJobBody
  rw [h1, h2, h4, h5]
  simp [h3]

theorem processJobBody_llm_some (env : ProcessJobEnv) (kws : List String) (r : LLMResult)
    (h : (processJobBody env kws).llmInvoked = some r) :
    processJobBody env kws = processJobDecide env kws := by
  unfold processJobBody at h
  split at h
  · simp at h
  · rename_i hcc
    split at h
    · simp at h
    · rename_i n heq
      split at h
      · simp at h
      · rename_i hn
        split at h
        · simp at h
        · rename_i b heq2
          split at h
          · simp at h
          · rename_i hb
            split at h
            · simp at h
            · rename_i u heq3
              have hb2 : b = false := by
                cases b with
                | false => rfl
                | true => exact absurd rfl hb
              have hcc2 : env.contextClosedAtStart = false := by
                cases hc : env.contextClosedAtStart with
                | false => rfl
                | true => exact absurd hc hcc
              have hn2 : (n == 0) = false := by
                cases hx : (n == 0) with
                | false => rfl
                | true => exact absurd hx hn
              subst hb2
              exact processJobBody_reaches env kws n hcc2 heq hn2 heq2 (by rw [heq3])

/-- C4: when the extracted title matches some fixed search term
(case-insensitive substring), the deciding stage of `processJob` proceeds to
the applying stage (`applyToJob` is invoked) and the LLM relevance scorer is
never invoked for that job. -/
theorem C4_title_match_goes_to_apply (env : ProcessJobEnv) (kws : List String) (n : Nat)
    (h1 : env.contextClosedAtStart = false) (h2 : env.linkCount = .ok n)
    (h3 : (n == 0) = false) (h4 : env.tabOpened = .ok false) (h5 : env.loadSteps = .ok ())
    (h6 : (matchesSearchCriteria (extractJobTitleFromDetailPage env.detail)).«matches» = true) :
    (processJob env kws).applyInvoked = true ∧ (processJob env kws).llmInvoked = none := by
  have hbody := processJobBody_reaches env kws n h1 h2 h3 h4 h5
  have hdec : processJobDecide env kws =
      processJobApplyPhase env none (extractJobDescription env.detail)
        (matchesSearchCriteria (extractJobTitleFromDetailPage env.detail)) := by
    simp only [processJobDecide]
    simp [h6]
  rw [processJob_applyInvoked_eq, processJob_llmInvoked_eq, hbody, hdec]
  exact ⟨processJobApplyPhase_apply_of_matches _ _ _ _ h6, processJobApplyPhase_llm _ _ _ _⟩

/-- Witness for C4: the "Senior QA Engineer" detail page reaches
`applyToJob` without an LLM call. -/
theorem C4_title_match_goes_to_apply_witness :
    (processJob jobEnvQA []).applyInvoked = true ∧ (processJob jobEnvQA []).llmInvoked = none :=
  C4_title_match_goes_to_apply jobEnvQA [] 1 rfl rfl (by decide) rfl rfl (by decide)

/-- C5: whenever the relevance scorer was invoked and returned verdict
`NO_MATCH` or `ERROR`, `processJob` terminates the job as skipped, logs
exactly the one skipped status, and never invokes `applyToJob`. -/
theorem C5_llm_no_match_skips (env : ProcessJobEnv) (kws : List String) (r : LLMResult)
    (h : (processJob env kws).llmInvoked = some r)
    (hv : r.verdict = .NO_MATCH ∨ r.verdict = .ERROR) :
    (processJob env kws).result.skipped = true
    ∧ (processJob env kws).applyInvoked = false
    ∧ (processJob env kws).logged = ["Skipped (LLM " ++ llmVerdictName r.verdict ++ ")"] := by
  rw [processJob_llmInvoked_eq] at h
  have hbody := processJobBody_llm_some env kws r h
  rw [hbody] at h
  simp only [processJobDecide] at hbody h
  set D := extractJobDescription env.detail with hD
  set IM := matchesSearchCriteria (extractJobTitleFromDetailPage env.detail) with hIM
  set L := checkJobMatchWithLLM env.llm kws D with hL
  by_cases hc1 : (!IM.«matches» && !(D == "")) = true
  · rw [if_pos hc1] at hbody h
    by_cases hc2 : (L.verdict == LLMVerdict.NO_MATCH || L.verdict == LLMVerdict.ERROR) = true
    · rw [if_pos hc2] at hbody h
      have hLr : some L = some r := h
      injection hLr with hLr
      subst hLr
      have hok : (processJobBody env kws).outcome =
          .ok { success := false, reason := "LLM " ++ llmVerdictName L.verdict,
                skipped := true, llmResult := some L } := by rw [hbody]
      obtain ⟨hres, hlog⟩ := processJob_result_of_ok env kws _ hok
      refine ⟨?_, ?_, ?_⟩
      · rw [hres]
      · rw [processJob_applyInvoked_eq, hbody]
      · rw [hlog, hbody]
    · rw [if_neg hc2] at h
      have hLr : some L = some r := by
        rw [← processJobApplyPhase_llm env (some L) D IM]
        exact h
      injection hLr with hLr
      exfalso
      apply hc2
      cases hv with
      | inl hvv => rw [hLr, hvv]; rfl
      | inr hvv => rw [hLr, hvv]; rfl
  · rw [if_neg hc1] at h
    have hcontra : (none : Option LLMResult) = some r := by
      rw [← processJobApplyPhase_llm env none D IM]
      exact h
    cases hcontra

set_option maxRecDepth 8000 in
/-- Witness for C5: the "Senior Accountant" page with a failing scorer call
(verdict `ERROR`) is skipped without invoking the application sequence. -/
theorem C5_llm_no_match_skips_witness :
    (processJob jobEnvAcct ["Playwright"]).result.skipped = true
    ∧ (processJob jobEnvAcct ["Playwright"]).applyInvoked = false
    ∧ (processJob jobEnvAcct ["Playwright"]).logged =
        ["Skipped (LLM " ++ llmVerdictName LLMVerdict.ERROR ++ ")"] :=
  C5_llm_no_match_skips jobEnvAcct ["Playwright"]
    ⟨.ERROR, some "Groq API error: boom"⟩ (by decide) (Or.inr rfl)

/-! ## C9: the selector-fallback extractors -/

theorem tryTitleSelectors_eq_head (pg : DetailPage) :
    ∀ sels : List String,
      tryTitleSelectors pg sels = (sels.filterMap (titleCandidate pg)).head? := by
  intro sels
  induction sels with
  | nil => rfl
  | cons sel rest ih =>
    simp only [tryTitleSelectors, titleCandidate, List.filterMap_cons]
    cases hq : pg.queryOne sel with
    | none => exact ih
    | some e =>
      dsimp only
      by_cases hcond : titleTextOk (resolveText e.textContent e.innerText) = true
      · rw [if_pos hcond, if_pos hcond]
        rfl
      · rw [if_neg hcond, if_neg hcond]
        exact ih

/-- C9 (amended): the title and company extractors try their selectors in
order and accept the first result that is nonempty after trimming and whose
*untrimmed* length exceeds the threshold (3 / 2), returning the trimmed
text; when nothing qualifies anywhere they return the sentinels
"Unknown Job Title" / "Unknown Company".  The description extractor
concatenates *every* element text whose trimmed length exceeds 200 (it does
not stop at the first), and when nothing substantial is found it returns the
empty string — not an "unknown" sentinel.  All extractors are total (never
raise). -/
theorem C9_extractors_amended :
    (∀ (pg : DetailPage) (sels : List String),
        tryTitleSelectors pg sels = (sels.filterMap (titleCandidate pg)).head?)
    ∧ (∀ pg : DetailPage,
        tryTitleSelectors pg titleSelectors = none →
        tryH1Elems (pg.queryAll "h1") = none →
        extractJobTitleFromDetailPage pg = "Unknown Job Title")
    ∧ (∀ pg : DetailPage,
        tryCompanySelectors pg companySelectors = none →
        tryCompanyElems (pg.queryAll companyFallbackSelector) = none →
        extractCompanyName pg = "Unknown Company")
    ∧ (∀ pg : DetailPage,
        (extractJobDescription pg).length < 200 → extractJobDescription pg = "") := by
  refine ⟨tryTitleSelectors_eq_head, ?_, ?_, ?_⟩
  · intro pg hsel hh1
    simp [extractJobTitleFromDetailPage, hsel, hh1]
  · intro pg hsel hfb
    simp [extractCompanyName, hsel, hfb]
  · intro pg h
    simp only [extractJobDescription] at h ⊢
    split
    · split
      · rfl
      · rename_i hc1 hc2
        rw [if_pos hc1, if_neg hc2] at h
        exact absurd h hc2
    · rename_i hc1
      rw [if_neg hc1] at h
      exact absurd h hc1

/-- Witness for C9: on an empty detail page all three extractors return
their sentinels. -/
theorem C9_extractors_amended_witness :
    extractJobTitleFromDetailPage detailPageEmpty = "Unknown Job Title"
    ∧ extractCompanyName detailPageEmpty = "Unknown Company"
    ∧ extractJobDescription detailPageEmpty = "" :=
  ⟨C9_extractors_amended.2.1 detailPageEmpty (by decide) (by decide),
   C9_extractors_amended.2.2.1 detailPageEmpty (by decide) (by decide),
   C9_extractors_amended.2.2.2 detailPageEmpty (by decide)⟩

set_option maxRecDepth 16000 in
/-- C9 counterexample to the claim as stated: (a) the title extractor
accepts " abc " — untrimmed length 5 — and returns "abc", whose *trimmed*
length 3 does not exceed the threshold 3, instead of the claimed sentinel;
(b) the description extractor does not accept the first qualifying result:
with two qualifying 201-character texts it returns their 403-character
concatenation, and on a page with no qualifying text it returns "" rather
than an "unknown" sentinel. -/
theorem C9_extractors_counterexample :
    extractJobTitleFromDetailPage detailPagePadded = "abc"
    ∧ (jsTrim " abc ").length = 3
    ∧ ((extractJobTitleFromDetailPage detailPagePadded == "Unknown Job Title") = false)
    ∧ ((extractJobDescription detailPageTwoDescs ==
          jsTrim (String.mk (List.replicate 201 'a'))) = false)
    ∧ (extractJobDescription detailPageTwoDescs).length = 403
    ∧ extractJobDescription detailPageEmpty = "" := by decide

/-! ## C1: `processJobBatch` -/

theorem runGroupAux_length (env : BatchEnv) (base : Nat) :
    ∀ (group : List JobCard) (j : Nat), (runGroupAux env base group j).length = group.length := by
  intro group
  induction group with
  | nil => intro j; rfl
  | cons c rest ih => intro j; simp [runGroupAux, ih]

theorem runGroupAux_get (env : BatchEnv) (base : Nat) :
    ∀ (group : List JobCard) (j k : Nat),
      (runGroupAux env base group j)[k]? =
        if k < group.length then some (batchEntry env (base + j + k)) else none := by
  intro group
  induction group with
  | nil => intro j k; simp [runGroupAux]
  | cons c rest ih =>
    intro j k
    cases k with
    | zero => simp [runGroupAux, batchEntry]
    | succ k2 =>
      simp only [runGroupAux, List.getElem?_cons_succ, List.length_cons]
      rw [ih (j + 1) k2]
      have harith : base + (j + 1) + k2 = base + j + (k2 + 1) := by omega
      rw [harith]
      by_cases hk : k2 < rest.length
      · rw [if_pos hk, if_pos (by omega)]
      · rw [if_neg hk, if_neg (by omega)]

theorem processJobBatchFuel_spec (env : BatchEnv) (C : Nat) (hC : 0 < C)
    (hg : ∀ g, env.ctxOpenAtGroupStart g = true)
    (hb : ∀ g, env.ctxOpenBetween g = true) :
    ∀ (fuel : Nat) (cards : List JobCard) (base g : Nat), cards.length ≤ fuel →
      (processJobBatchFuel env C fuel base g cards).length = cards.length
      ∧ ∀ k : Nat, (processJobBatchFuel env C fuel base g cards)[k]? =
          if k < cards.length then some (batchEntry env (base + k)) else none := by
  intro fuel
  induction fuel with
  | zero =>
    intro cards base g hlen
    have hnil : cards = [] := List.length_eq_zero.mp (Nat.le_zero.mp hlen)
    subst hnil
    simp [processJobBatchFuel]
  | succ f ih =>
    intro cards base g hlen
    cases cards with
    | nil => simp [processJobBatchFuel]
    | cons c cs =>
      simp only [processJobBatchFuel, hg g, Bool.not_true, Bool.false_eq_true, if_false]
      cases hdrop : (c :: cs).drop C with
      | nil =>
        have hle : (c :: cs).length ≤ C := List.drop_eq_nil_iff.mp hdrop
        have htake : (c :: cs).take C = c :: cs := List.take_of_length_le hle
        rw [htake]
        refine ⟨runGroupAux_length env base (c :: cs) 0, fun k => ?_⟩
        rw [runGroupAux_get env base (c :: cs) 0 k]
        simp
      | cons d ds =>
        have hlt : C < (c :: cs).length := by
          by_contra hcon
          have : (c :: cs).drop C = [] := List.drop_eq_nil_iff.mpr (by omega)
          rw [hdrop] at this
          cases this
        have htakeLen : ((c :: cs).take C).length = C := by
          rw [List.length_take]
          omega
        have hdropLen : (d :: ds).length = (c :: cs).length - C := by
          rw [← hdrop, List.length_drop]
        have hrec := ih (d :: ds) (base + C) (g + 1) (by rw [hdropLen]; omega)
        rw [hb g]
        simp only [Bool.not_true, Bool.false_eq_true, if_false]
        constructor
        · rw [List.length_append, runGroupAux_length env base _ 0, htakeLen, hrec.1]
          omega
        · intro k
          by_cases hk : k < C
          · rw [List.getElem?_append_left (by rw [runGroupAux_length env base _ 0, htakeLen]; omega)]
            rw [runGroupAux_get env base _ 0 k, htakeLen]
            rw [if_pos hk, if_pos (by omega)]
            simp
          · rw [List.getElem?_append_right (by rw [runGroupAux_length env base _ 0, htakeLen]; omega)]
            rw [runGroupAux_length env base _ 0, htakeLen]
            rw [hrec.2 (k - C)]
            by_cases hk2 : k < (c :: cs).length
            · rw [if_pos (by omega), if_pos hk2]
              have : base + C + (k - C) = base + k := by omega
              rw [this]
            · rw [if_neg (by omega), if_neg hk2]

/-- C1 (amended): *provided every context poll sees an open page* (the
processor aborts and drops the remaining cards when the browsing context
closes), `processJobBatch` with any positive group size returns exactly one
entry per input card, in original card order: entry `k` is the settled
outcome of card `k` (a job outcome, or a failure placeholder for a rejected
promise or a closed-context card poll). -/
theorem C1_batch_amended (env : BatchEnv) (C : Nat) (cards : List JobCard)
    (hC : 0 < C)
    (hg : ∀ g, env.ctxOpenAtGroupStart g = true)
    (hb : ∀ g, env.ctxOpenBetween g = true) :
    (processJobBatchWith env C cards).length = cards.length
    ∧ ∀ k : Nat, (processJobBatchWith env C cards)[k]? =
        if k < cards.length then some (batchEntry env k) else none := by
  have h := processJobBatchFuel_spec env C hC hg hb cards.length cards 0 0 (Nat.le_refl _)
  refine ⟨h.1, fun k => ?_⟩
  have h2 := h.2 k
  simpa using h2

/-- Witness for C1: with the context always open, 3 cards at group size 2
give exactly 3 entries and entry 1 is card 1's outcome. -/
theorem C1_batch_amended_witness :
    (processJobBatchWith batchEnvOpen 2 [0, 1, 2]).length = 3
    ∧ (processJobBatchWith batchEnvOpen 2 [0, 1, 2])[1]? = some (batchEntry batchEnvOpen 1) := by
  have h := C1_batch_amended batchEnvOpen 2 [0, 1, 2] (by decide) (fun _ => rfl) (fun _ => rfl)
  exact ⟨h.1, by rw [h.2 1]; rfl⟩

/-- C1 counterexample to the claim as stated: when the browsing context is
already closed at the first group poll, `processJobBatch` (group size 2, the
script's `MAX_CONCURRENT_TABS`) returns 0 entries for a 1-card list — the
card is dropped with neither a job outcome nor a failure placeholder. -/
theorem C1_batch_counterexample :
    (processJobBatch batchEnvClosed [0]).length = 0
    ∧ (((processJobBatch batchEnvClosed [0]).length == 1) = false) := by decide

/-! ## C2: the per-term pagination loop -/

theorem termLoop_page_mono (env : SearchPageEnv) :
    ∀ (fuel p0 q : Nat) (b : PageAction),
      (q, b) ∈ termLoop env fuel p0 → p0 ≤ q := by
  intro fuel
  induction fuel with
  | zero => intro p0 q b h; simp [termLoop] at h
  | succ f ih =>
    intro p0 q b h
    unfold termLoop at h
    split at h
    · simp at h
    · split at h
      · simp at h
        exact Nat.le_of_eq h.1.symm
      · split at h
        · rcases List.mem_cons.mp h with h1 | h1
          · simp only [Prod.mk.injEq] at h1
            exact Nat.le_of_eq h1.1.symm
          · exact Nat.le_of_succ_le (ih (p0 + 1) q b h1)
        · split at h
          · simp at h
            exact Nat.le_of_eq h.1.symm
          · split at h
            · rcases List.mem_cons.mp h with h1 | h1
              · simp only [Prod.mk.injEq] at h1
                exact Nat.le_of_eq h1.1.symm
              · exact Nat.le_of_succ_le (ih (p0 + 1) q b h1)
            · simp at h
              exact Nat.le_of_eq h.1.symm

theorem termLoop_visits_start (env : SearchPageEnv) :
    ∀ (fuel p0 : Nat), 0 < fuel → p0 ≤ MAX_PAGES →
      ∃ b, (p0, b) ∈ termLoop env fuel p0 := by
  intro fuel p0 hf hle
  cases fuel with
  | zero => omega
  | succ f =>
    unfold termLoop
    rw [if_neg (by omega)]
    by_cases h1 : env.mainPageClosed p0 = true
    · rw [if_pos h1]
      exact ⟨.closedBreak, by simp⟩
    · rw [if_neg h1]
      by_cases h2 : (!env.navOk p0) = true
      · rw [if_pos h2]
        exact ⟨.skippedNav, by simp⟩
      · rw [if_neg h2]
        by_cases h3 : (!env.markerAppears p0) = true
        · rw [if_pos h3]
          exact ⟨.noMarker, by simp⟩
        · rw [if_neg h3]
          by_cases h4 : 0 < env.cardCount p0
          · rw [if_pos h4]
            exact ⟨.ranBatch (env.cardCount p0), by simp⟩
          · rw [if_neg h4]
            exact ⟨.zeroCards, by simp⟩

theorem termLoop_stop_is_last (env : SearchPageEnv) :
    ∀ (fuel p0 p : Nat) (a : PageAction),
      (p, a) ∈ termLoop env fuel p0 → stopAction a = true →
      ∀ (q : Nat) (b : PageAction), (q, b) ∈ termLoop env fuel p0 → q ≤ p := by
  intro fuel
  induction fuel with
  | zero => intro p0 p a h; simp [termLoop] at h
  | succ f ih =>
    intro p0 p a h hstop q b hq
    unfold termLoop at h hq
    by_cases hg : MAX_PAGES < p0
    · rw [if_pos hg] at h
      simp at h
    · rw [if_neg hg] at h hq
      by_cases h1 : env.mainPageClosed p0 = true
      · rw [if_pos h1] at h hq
        simp at h hq
        exact le_of_eq (hq.1.trans h.1.symm)
      · rw [if_neg h1] at h hq
        by_cases h2 : (!env.navOk p0) = true
        · rw [if_pos h2] at h hq
          rcases List.mem_cons.mp h with hh | hh
          · simp only [Prod.mk.injEq] at hh
            rw [hh.2] at hstop
            simp [stopAction] at hstop
          · rcases List.mem_cons.mp hq with hq2 | hq2
            · simp only [Prod.mk.injEq] at hq2
              obtain ⟨hq2a, _⟩ := hq2
              have hmono := termLoop_page_mono env f (p0 + 1) p a hh
              omega
            · exact ih (p0 + 1) p a hh hstop q b hq2
        · rw [if_neg h2] at h hq
          by_cases h3 : (!env.markerAppears p0) = true
          · rw [if_pos h3] at h hq
            simp at h hq
            exact le_of_eq (hq.1.trans h.1.symm)
          · rw [if_neg h3] at h hq
            by_cases h4 : 0 < env.cardCount p0
            · rw [if_pos h4] at h hq
              rcases List.mem_cons.mp h with hh | hh
              · simp only [Prod.mk.injEq] at hh
                rw [hh.2] at hstop
                simp [stopAction] at hstop
              · rcases List.mem_cons.mp hq with hq2 | hq2
                · simp only [Prod.mk.injEq] at hq2
                  obtain ⟨hq2a, _⟩ := hq2
                  have hmono := termLoop_page_mono env f (p0 + 1) p a hh
                  omega
                · exact ih (p0 + 1) p a hh hstop q b hq2
            · rw [if_neg h4] at h hq
              simp at h hq
              exact le_of_eq (hq.1.trans h.1.symm)

theorem termLoop_nav_fail_continues (env : SearchPageEnv) :
    ∀ (fuel p0 p : Nat), MAX_PAGES + 2 ≤ fuel + p0 →
      (p, PageAction.skippedNav) ∈ termLoop env fuel p0 → p < MAX_PAGES →
      ∃ b, (p + 1, b) ∈ termLoop env fuel p0 := by
  intro fuel
  induction fuel with
  | zero => intro p0 p hinv h; simp [termLoop] at h
  | succ f ih =>
    intro p0 p hinv h hp
    unfold termLoop at h ⊢
    by_cases hg : MAX_PAGES < p0
    · rw [if_pos hg] at h
      simp at h
    · rw [if_neg hg] at h ⊢
      by_cases h1 : env.mainPageClosed p0 = true
      · rw [if_pos h1] at h
        simp at h
      · rw [if_neg h1] at h ⊢
        by_cases h2 : (!env.navOk p0) = true
        · rw [if_pos h2] at h ⊢
          rcases List.mem_cons.mp h with hh | hh
          · simp only [Prod.mk.injEq] at hh
            obtain ⟨hp0, _⟩ := hh
            obtain ⟨b, hb⟩ :=
              termLoop_visits_start env f (p0 + 1) (by omega) (by omega)
            refine ⟨b, ?_⟩
            rw [hp0]
            exact List.mem_cons_of_mem _ hb
          · obtain ⟨b, hb⟩ := ih (p0 + 1) p (by omega) hh hp
            exact ⟨b, List.mem_cons_of_mem _ hb⟩
        · rw [if_neg h2] at h ⊢
          by_cases h3 : (!env.markerAppears p0) = true
          · rw [if_pos h3] at h
            simp at h
          · rw [if_neg h3] at h ⊢
            by_cases h4 : 0 < env.cardCount p0
            · rw [if_pos h4] at h ⊢
              rcases List.mem_cons.mp h with hh | hh
              · simp at hh
              · obtain ⟨b, hb⟩ := ih (p0 + 1) p (by omega) hh hp
                exact ⟨b, List.mem_cons_of_mem _ hb⟩
            · rw [if_neg h4] at h
              simp at h

/-- C2 (amended): pagination for a term stops — no later page is visited —
when the main page is found closed, when no job-card marker appears, or when
zero cards are found; but a *navigation failure* does not stop pagination:
the failed page is skipped and the next page (within the 5-page maximum) is
still visited. -/
theorem C2_pagination_amended (env : SearchPageEnv) :
    (∀ (p : Nat) (a : PageAction), (p, a) ∈ searchTermPagination env → stopAction a = true →
       ∀ (q : Nat) (b : PageAction), (q, b) ∈ searchTermPagination env → q ≤ p)
    ∧ (∀ p : Nat, (p, PageAction.skippedNav) ∈ searchTermPagination env → p < MAX_PAGES →
       (searchTermPagination env).any (fun e => e.1 == p + 1) = true) := by
  constructor
  · intro p a h hstop q b hq
    exact termLoop_stop_is_last env (MAX_PAGES + 1) 1 p a h hstop q b hq
  · intro p h hp
    obtain ⟨b, hb⟩ := termLoop_nav_fail_continues env (MAX_PAGES + 1) 1 p (by omega) h hp
    rw [List.any_eq_true]
    exact ⟨(p + 1, b), hb, by simp⟩

/-- Witness for C2: with navigation to page 1 failing, page 2 is still
visited. -/
theorem C2_pagination_amended_witness :
    (searchTermPagination searchEnvNavFail).any (fun e => e.1 == 2) = true :=
  (C2_pagination_amended searchEnvNavFail).2 1 (by decide) (by decide)

/-- C2 counterexample to the claim as stated: navigation to page 1 fails,
yet the driver proceeds to pages 2–5 of the same term — a navigation failure
does not stop pagination (the code `continue`s to the next page). -/
theorem C2_pagination_counterexample :
    searchEnvNavFail.navOk 1 = false
    ∧ (searchTermPagination searchEnvNavFail).map Prod.fst = [1, 2, 3, 4, 5]
    ∧ (1, PageAction.skippedNav) ∈ searchTermPagination searchEnvNavFail := by decide
